import Mathlib

/-!
Verification of the `consistent_images` repository: a shallow embedding in
Lean 4 of the two Python scripts `generate_image.py` and
`create_style_guide.py`, together with theorems settling the specification
claims about filename sanitisation, slugification, error handling and the
order of filesystem checks versus network calls.

Strings are modelled over `List Char`.  Python's `str.lower` is modelled on
the ASCII range (the repository's prompts and artist names are ASCII); LLM
responses, image-API outputs and downloaded bytes are oracle parameters,
and side effects (network calls, directory creation, file writes, printed
lines) are reified as explicit event and output lists.
-/

namespace ConsistentImages

/-- ASCII model of Python `str.lower` applied to one character: an
uppercase ASCII letter is shifted down into lowercase, every other
character is unchanged. -/
def lowerAscii (c : Char) : Char :=
  if 'A' ≤ c ∧ c ≤ 'Z' then Char.ofNat (c.toNat + 32) else c

/-- Characters stripped by Python's argumentless `str.strip`:
ASCII whitespace. -/
def isPySpace (c : Char) : Bool :=
  c == ' ' || c == '\t' || c == '\n' || c == '\x0d' || c == '\x0b' || c == '\x0c'

/-- Characters matched by the class `[a-z0-9]` of the regular expression in
`make_safe_filename` (`generate_image.py`, line 69). -/
def isSafeChar (c : Char) : Bool :=
  decide ('a' ≤ c ∧ c ≤ 'z') || decide ('0' ≤ c ∧ c ≤ '9')

/-- Drop the characters satisfying `p` from the end of a list: Python's
`str.rstrip`. -/
def dropTrailing (p : Char → Bool) (l : List Char) : List Char :=
  (l.reverse.dropWhile p).reverse

/-- Drop the characters satisfying `p` from both ends of a list: Python's
`str.strip` with an argument (and, with `isPySpace`, without one). -/
def stripEnds (p : Char → Bool) (l : List Char) : List Char :=
  dropTrailing p (l.dropWhile p)

/-- Model of `re.sub(r'[^a-z0-9]+', '_', s)`: scanning left to right, every
maximal run of characters outside `[a-z0-9]` is replaced by a single
underscore.  The boolean flag records whether the scan is currently inside
such a run (so that only the first character of the run emits `_`). -/
def collapseRuns : Bool → List Char → List Char
  | _, [] => []
  | inRun, c :: rest =>
    if isSafeChar c then c :: collapseRuns false rest
    else if inRun then collapseRuns true rest
    else '_' :: collapseRuns true rest

/-- Embedding of `make_safe_filename` (`generate_image.py`, lines 63-78):
lowercase and strip whitespace, collapse non-alphanumeric runs to a single
underscore, strip leading and trailing underscores, and if the result is
longer than `max_length` truncate to `max_length` characters and strip the
underscores this may leave at the right end.  The Python default for
`max_length` is 50; callers below pass 50 explicitly. -/
def make_safe_filename (prompt : String) (max_length : Nat) : String :=
  let safe := stripEnds isPySpace (prompt.data.map lowerAscii)
  let safe := collapseRuns false safe
  let safe := stripEnds (fun c => c == '_') safe
  let safe :=
    if safe.length > max_length then dropTrailing (fun c => c == '_') (safe.take max_length)
    else safe
  String.mk safe

/-- The modules imported by `generate_image.py` (lines 9-14): `argparse`,
`sys`, `pathlib` (for `Path`), `litellm` (for `completion`), `replicate`
and `requests`.  No other module is imported anywhere in the file. -/
def generate_image_imports : List String :=
  ["argparse", "sys", "pathlib", "litellm", "replicate", "requests"]

/-- Embedding of the filename computation of `create_style_guide`
(`create_style_guide.py`, line 222):
`name.lower().replace(" ", "_").replace(".", "").replace("-", "_")`.
Each `str.replace` with a one-character pattern is a character map
(or, when the replacement is empty, a filter). -/
def style_guide_filename (name : String) : String :=
  String.mk
    ((((name.data.map lowerAscii).map
        (fun c => if c == ' ' then '_' else c)).filter
        (fun c => c != '.')).map
        (fun c => if c == '-' then '_' else c))

/-- Embedding of the path construction of `create_style_guide`
(`create_style_guide.py`, line 223): `f"style-guides/.md"` around the
slugified name. -/
def style_guide_filepath (name : String) : String :=
  "style-guides/" ++ style_guide_filename name ++ ".md"

/-- The per-name filename transform exactly as claim C2 words it:
lowercase, then spaces to underscores, then periods deleted, then hyphens
deleted (a hyphen contributes no character).  Stated from the spec's words,
for comparison with `style_guide_filename`. -/
def spec_slug (name : String) : String :=
  String.mk
    ((((name.data.map lowerAscii).map
        (fun c => if c == ' ' then '_' else c)).filter
        (fun c => c != '.')).filter
        (fun c => c != '-'))

/-- Single left-to-right per-character transform equivalent to the source's
chain of replaces: lowercase the character, map a space to an underscore,
delete a period, map a hyphen to an underscore, keep anything else
verbatim. -/
def slug_char (c : Char) : Option Char :=
  let d := lowerAscii c
  let d := if d == ' ' then '_' else d
  if d == '.' then none
  else some (if d == '-' then '_' else d)

/-- The amended C2 transform: the source's slugification as one pass of
`slug_char` over the characters of the name. -/
def spec_slug_amended (name : String) : String :=
  String.mk (name.data.filterMap slug_char)

/-- The sequenced character-level passes of `style_guide_filename` agree
with the single pass `slug_char` on every name. -/
theorem slug_single_pass (name : String) :
    style_guide_filename name = spec_slug_amended name := by
  unfold style_guide_filename spec_slug_amended
  congr 1
  induction name.data with
  | nil => rfl
  | cons c l ih =>
    simp only [List.map_cons, List.filter_cons, List.filterMap_cons, slug_char,
      Function.comp, bne_iff_ne, ne_eq, beq_iff_eq]
    split_ifs <;> simp_all

/-- The value returned by `replicate.run` in `generate_image`
(`generate_image.py`, lines 101-104): either a single URL or a list of
URLs. -/
inductive ReplicateOutput where
  | single (url : String)
  | listed (urls : List String)
deriving DecidableEq

/-- The URL selection of `generate_image` (`generate_image.py`, lines
106-109): `output[0]` when the output is a list, the output itself
otherwise.  `none` models the `IndexError` that `output[0]` raises on an
empty list. -/
def select_image_url : ReplicateOutput → Option String
  | .single url => some url
  | .listed urls => urls.head?

/-- Observable side effects of a `generate_image` run, in program order:
the `completion` call of `create_enhanced_prompt`, the `replicate.run`
call, the `requests.get` download, and the `open`/`write` of the image
file (`generate_image.py`, lines 114-115 — an event the source can never
emit, since line 113 raises before it; it appears in statements only under
negation). -/
inductive GIEvent where
  | llmCall
  | imageCall
  | httpGet (url : String)
  | fileWrite (filename content : String)
deriving DecidableEq

/-- Outcome of a `generate_image` run: `sys.exit(code)`, an uncaught
exception carrying its message, or normal return of the filename at line
116.  The `finished` outcome models that return statement but is
unreachable: every path to it first evaluates `make_safe_filename` at line
113, which raises `NameError` because `re` is never imported. -/
inductive GIResult where
  | exited (code : Nat)
  | raised (exn : String)
  | finished (filename : String)
deriving DecidableEq

/-- The exception raised by line 113 of `generate_image.py`: the body of
`make_safe_filename` evaluates `re.sub` (line 69) but the module never
imports `re`. -/
def nameErrorRe : String := "NameError: name \x27re\x27 is not defined"

/-- The line of equal signs printed around the enhanced prompt
(`generate_image.py`, lines 90-94). -/
def sep70 : String := String.mk (List.replicate 70 '=')

/-- Embedding of `generate_image` (`generate_image.py`, lines 80-116)
together with `load_style_guide` (lines 16-24).  The file system and the
network are oracle parameters: `sgFile` is the content of the style-guide
file at `style_guide_path` (`none` when the file does not exist),
`enhance` is the LLM's enhanced prompt for a given style guide and user
prompt, `rep` is the output of `replicate.run`, and `download` gives the
bytes served at a URL.  A missing style guide exits with code 1 before any
call; an empty list output raises `IndexError` at `output[0]` (line 107)
after the LLM and image calls; otherwise the URL is printed and downloaded
(line 112), and then line 113 evaluates `make_safe_filename(prompt)`,
which raises `NameError` because `re` is never imported — so the
`open`/`write` at lines 114-115 and the return at line 116 are never
reached.  The result is the run's outcome, its side-effect events in
order, and its printed lines in order. -/
def generate_image (sgFile : Option String) (enhance : String → String → String)
    (rep : ReplicateOutput) (_download : String → String)
    (style_guide_path prompt : String) :
    GIResult × List GIEvent × List String :=
  match sgFile with
  | none =>
    (GIResult.exited 1, [],
      ["Error: Style guide not found: " ++ style_guide_path,
       "Create one first using: python create_style_guide.py --artist \x27Artist Name\x27"])
  | some style_guide =>
    let enhanced_prompt := enhance style_guide prompt
    let banner := [sep70, "ENHANCED PROMPT", sep70, enhanced_prompt, sep70, ""]
    match select_image_url rep with
    | none =>
      (GIResult.raised "IndexError: list index out of range",
       [GIEvent.llmCall, GIEvent.imageCall], banner)
    | some image_url =>
      (GIResult.raised nameErrorRe,
       [GIEvent.llmCall, GIEvent.imageCall, GIEvent.httpGet image_url],
       banner ++ ["Image URL: " ++ image_url])

/-- Observable side effects of the Style Guide Builder
(`create_style_guide.py`): the `completion` call of
`generate_style_guide_with_llm`, the per-image `completion` call of
`analyze_image_with_llm`, the `completion` call of
`synthesize_style_guide_from_images`, the `mkdir` of `style-guides/`, and
a file write. -/
inductive SGEvent where
  | llmCall
  | analyzeCall (path : String)
  | synthCall
  | mkdirStyleGuides
  | writeFile (path content : String)
deriving DecidableEq

/-- Embedding of `generate_style_guide_with_llm` (`create_style_guide.py`,
lines 68-110).  The `completion` call is an oracle: `Except.ok` is its
response content, `Except.error e` is a raised exception with message `e`.
An exception is caught, the error message and the three remediation hints
are printed, and `none` is returned.  The result pairs the returned value
with the printed lines. -/
def generate_style_guide_with_llm (name : String) (llm : Except String String) :
    Option String × List String :=
  let ask := "🤖 Asking LLM to generate style guide for " ++ name ++ "..."
  match llm with
  | Except.ok content => (some content, [ask])
  | Except.error e =>
    (none,
     [ask,
      "❌ Error calling LLM: " ++ e,
      "",
      "Make sure you have:",
      "1. Installed litellm: pip install litellm",
      "2. Set your API key (e.g., export OPENAI_API_KEY=\x27your-key\x27)",
      "3. Have access to the specified model"])

/-- Embedding of `create_style_guide` (`create_style_guide.py`, lines
215-236): make the `style-guides/` directory, derive the filename, call
the LLM, and on a `none` result return `none` without writing; otherwise
write the guide and return the filepath.  The result is the event list,
the returned filepath, and the printed lines. -/
def create_style_guide (name : String) (llm : Except String String) :
    List SGEvent × Option String × List String :=
  let filepath := style_guide_filepath name
  let r := generate_style_guide_with_llm name llm
  match r.1 with
  | none => ([SGEvent.mkdirStyleGuides, SGEvent.llmCall], none, r.2)
  | some guide =>
    ([SGEvent.mkdirStyleGuides, SGEvent.llmCall, SGEvent.writeFile filepath guide],
     some filepath,
     r.2 ++ ["✓ Style guide created: " ++ filepath])

/-- Embedding of the per-image loop of `main` in `--images` mode
(`create_style_guide.py`, lines 263-274).  For each path in order: check
existence (`Path(image_path).exists()`); a missing path aborts the loop at
once with no call for it; an existing path is analysed (one `completion`
call, the `analyzeCall` event) and a `none` analysis aborts the loop.
`ex` is the file-existence oracle and `an` the analysis oracle (`none`
models a caught exception).  Returns the events and, on success, the list
of analyses. -/
def analyze_images (ex : String → Bool) (an : String → Option String) :
    List String → List SGEvent × Option (List String)
  | [] => ([], some [])
  | p :: rest =>
    if ex p then
      match an p with
      | none => ([SGEvent.analyzeCall p], none)
      | some a =>
        let r := analyze_images ex an rest
        (SGEvent.analyzeCall p :: r.1, r.2.map (fun as => a :: as))
    else ([], none)

/-- Embedding of `main` in `--images` mode (`create_style_guide.py`, lines
256-293): analyse the images; on success synthesise the guide (one
`completion` call, the `synthCall` event); on success make the
`style-guides/` directory and write `style-guides/images-<timestamp>.md`.
Any `none` along the way returns `none` with no further events. -/
def images_main (ex : String → Bool) (an : String → Option String)
    (synth : List String → Option String) (paths : List String) (timestamp : String) :
    List SGEvent × Option String :=
  match analyze_images ex an paths with
  | (evs, none) => (evs, none)
  | (evs, some analyses) =>
    match synth analyses with
    | none => (evs ++ [SGEvent.synthCall], none)
    | some guide =>
      let fp := "style-guides/images-" ++ timestamp ++ ".md"
      (evs ++ [SGEvent.synthCall, SGEvent.mkdirStyleGuides, SGEvent.writeFile fp guide],
       some fp)

/-- Every event of the analysis loop is an `analyzeCall` for a path in the
longest all-existing prefix of the path list. -/
theorem analyze_images_events (ex : String → Bool) (an : String → Option String) :
    ∀ paths e, e ∈ (analyze_images ex an paths).1 →
      ∃ q, e = SGEvent.analyzeCall q ∧ q ∈ paths.takeWhile ex := by
  intro paths
  induction paths with
  | nil => intro e h; simp [analyze_images] at h
  | cons p rest ih =>
    intro e h
    by_cases hex : ex p
    · rw [List.takeWhile_cons_of_pos hex]
      cases han : an p with
      | none =>
        simp [analyze_images, hex, han] at h
        exact ⟨p, h, List.mem_cons_self _ _⟩
      | some a =>
        simp only [analyze_images, hex, if_true, han] at h
        rcases List.mem_cons.mp h with h | h
        · exact ⟨p, h, List.mem_cons_self _ _⟩
        · obtain ⟨q, hq, hmem⟩ := ih e h
          exact ⟨q, hq, List.mem_cons_of_mem _ hmem⟩
    · simp [analyze_images, hex] at h

/-- When some path is missing, the analysis loop fails. -/
theorem analyze_images_missing (ex : String → Bool) (an : String → Option String) :
    ∀ paths, (∃ p ∈ paths, ex p = false) → (analyze_images ex an paths).2 = none := by
  intro paths
  induction paths with
  | nil => rintro ⟨p, hp, -⟩; simp at hp
  | cons q rest ih =>
    rintro ⟨p, hp, hex⟩
    by_cases hq : ex q
    · cases han : an q with
      | none => simp [analyze_images, hq, han]
      | some a =>
        have hrest : (analyze_images ex an rest).2 = none := by
          apply ih
          rcases List.mem_cons.mp hp with h | h
          · subst h; rw [hex] at hq; exact absurd hq (by decide)
          · exact ⟨p, h, hex⟩
        simp [analyze_images, hq, han, hrest]
    · simp [analyze_images, hq]

/-- Membership survives `dropWhile`: a character of the dropped-prefix list
was a character of the original list. -/
theorem mem_of_mem_dropWhile {p : Char → Bool} :
    ∀ {l : List Char} {c : Char}, c ∈ l.dropWhile p → c ∈ l := by
  intro l
  induction l with
  | nil => intro c h; simp [List.dropWhile] at h
  | cons a l ih =>
    intro c h
    simp only [List.dropWhile] at h
    split at h
    · exact List.mem_cons_of_mem _ (ih h)
    · exact h

/-- Membership survives `stripEnds`. -/
theorem mem_of_mem_stripEnds {p : Char → Bool} {l : List Char} {c : Char}
    (h : c ∈ stripEnds p l) : c ∈ l := by
  unfold stripEnds dropTrailing at h
  rw [List.mem_reverse] at h
  have h1 := mem_of_mem_dropWhile h
  rw [List.mem_reverse] at h1
  exact mem_of_mem_dropWhile h1

/-- Inside a run, a list of characters that are all outside `[a-z0-9]`
collapses to nothing. -/
theorem collapseRuns_true_of_unsafe :
    ∀ l : List Char, (∀ c ∈ l, isSafeChar c = false) → collapseRuns true l = [] := by
  intro l
  induction l with
  | nil => intro _; rfl
  | cons c rest ih =>
    intro h
    have hc : isSafeChar c = false := h c (List.mem_cons_self _ _)
    have hrest := ih (fun d hd => h d (List.mem_cons_of_mem _ hd))
    simp [collapseRuns, hc, hrest]

/-- Outside a run, a list of characters that are all outside `[a-z0-9]`
collapses to nothing or to a single underscore. -/
theorem collapseRuns_false_of_unsafe (l : List Char)
    (h : ∀ c ∈ l, isSafeChar c = false) :
    collapseRuns false l = [] ∨ collapseRuns false l = ['_'] := by
  cases l with
  | nil => exact Or.inl rfl
  | cons c rest =>
    right
    have hc : isSafeChar c = false := h c (List.mem_cons_self _ _)
    have hrest := collapseRuns_true_of_unsafe rest (fun d hd => h d (List.mem_cons_of_mem _ hd))
    simp [collapseRuns, hc, hrest]

/-- A prompt whose characters are all non-alphanumeric after lowercasing
sanitises to the empty filename. -/
theorem make_safe_filename_all_unsafe (prompt : String)
    (h : ∀ c ∈ prompt.data, isSafeChar (lowerAscii c) = false) :
    make_safe_filename prompt 50 = "" := by
  have h0 : ∀ c ∈ stripEnds isPySpace (prompt.data.map lowerAscii), isSafeChar c = false := by
    intro c hc
    obtain ⟨d, hd, rfl⟩ := List.mem_map.mp (mem_of_mem_stripEnds hc)
    exact h d hd
  rcases collapseRuns_false_of_unsafe _ h0 with hcol | hcol <;>
    (simp only [make_safe_filename]; rw [hcol]; rfl)

/-- C1: for the subject prompt "A bright red fox!! in the snow" the
sanitisation algorithm written in the body of `make_safe_filename`
(lowercase, collapse non-alphanumeric runs to single underscores, strip
edge underscores, truncate to 50) yields exactly
"a_bright_red_fox_in_the_snow", within the length bound — but the module
`re` that line 69 of `generate_image.py` uses is absent from the file's
module list (lines 9-14), so at run time the call raises `NameError`
before any filename is produced. -/
theorem C1_fox_filename_and_missing_re_module :
    "re" ∉ generate_image_imports ∧
    make_safe_filename "A bright red fox!! in the snow" 50 = "a_bright_red_fox_in_the_snow" ∧
    (make_safe_filename "A bright red fox!! in the snow" 50).length ≤ 50 := by
  refine ⟨by decide, by decide, by decide⟩

/-- C2 as stated is false: the claim has periods deleted and hyphens
deleted, but line 222 of `create_style_guide.py` replaces a hyphen with an
underscore, so on the name "a-b" the code yields "a_b" while the claimed
transform yields "ab". -/
theorem C2_counterexample :
    style_guide_filename "a-b" = "a_b" ∧ spec_slug "a-b" = "ab" ∧
    ¬ (∀ name, style_guide_filename name = spec_slug name) := by
  refine ⟨by decide, by decide, fun h => absurd (h "a-b") (by decide)⟩

/-- C2 amended: the filename equals the name lowercased, then spaces
replaced by underscores, then periods deleted, then hyphens replaced by
underscores, in that order — equivalently one left-to-right pass of
`slug_char`; in particular a hyphen contributes an underscore, not
nothing. -/
theorem C2_slugification_order :
    (∀ name, style_guide_filename name = spec_slug_amended name) ∧
    slug_char '-' = some '_' :=
  ⟨slug_single_pass, by decide⟩

/-- C3: the Style Guide Builder computes the path
`style-guides/j_m_w_turner.md` for the name "J. M. W. Turner" and
`style-guides/art_nouveau_revival.md` for the name "Art-Nouveau Revival",
both as the derived path and as the filepath `create_style_guide` returns
after a successful LLM call. -/
theorem C3_turner_and_art_nouveau_paths :
    style_guide_filepath "J. M. W. Turner" = "style-guides/j_m_w_turner.md" ∧
    style_guide_filepath "Art-Nouveau Revival" = "style-guides/art_nouveau_revival.md" ∧
    (create_style_guide "J. M. W. Turner" (Except.ok "guide")).2.1 =
      some "style-guides/j_m_w_turner.md" ∧
    (create_style_guide "Art-Nouveau Revival" (Except.ok "guide")).2.1 =
      some "style-guides/art_nouveau_revival.md" := by
  refine ⟨by decide, by decide, by decide, by decide⟩

/-- C4 as stated is false: with paths ["a", "b"] where "a" exists and "b"
does not, the run does abort, but only after issuing the analysis LLM call
for "a" — the existence check is interleaved with the per-image calls, not
done up front. -/
theorem C4_counterexample :
    (images_main (fun p => p == "a") (fun p => if p == "a" then some "analysis" else none)
        (fun _ => some "guide") ["a", "b"] "20260101_000000").1 =
      [SGEvent.analyzeCall "a"] ∧
    (fun p : String => p == "a") "b" = false ∧
    ¬ (∀ (ex : String → Bool) (an : String → Option String)
         (synth : List String → Option String) (paths : List String) (ts : String),
        (∃ p ∈ paths, ex p = false) →
        ∀ q, SGEvent.analyzeCall q ∉ (images_main ex an synth paths ts).1) := by
  refine ⟨by decide, by decide, fun h => ?_⟩
  exact h (fun p => p == "a") (fun p => if p == "a" then some "analysis" else none)
    (fun _ => some "guide") ["a", "b"] "20260101_000000"
    ⟨"b", by decide, by decide⟩ "a" (by decide)

/-- C4 amended: in `--images` mode, when some path does not exist the run
returns no filepath, never creates `style-guides/`, writes no file and
never reaches synthesis; analysis LLM calls are issued only for paths in
the all-existing prefix strictly before the first missing path. -/
theorem C4_missing_path_aborts (ex : String → Bool) (an : String → Option String)
    (synth : List String → Option String) (paths : List String) (ts : String)
    (h : ∃ p ∈ paths, ex p = false) :
    (images_main ex an synth paths ts).2 = none ∧
    SGEvent.mkdirStyleGuides ∉ (images_main ex an synth paths ts).1 ∧
    (∀ fp c, SGEvent.writeFile fp c ∉ (images_main ex an synth paths ts).1) ∧
    SGEvent.synthCall ∉ (images_main ex an synth paths ts).1 ∧
    (∀ q, SGEvent.analyzeCall q ∈ (images_main ex an synth paths ts).1 →
      q ∈ paths.takeWhile ex) := by
  cases hrec : analyze_images ex an paths with
  | mk evs res =>
    have hres : res = none := by
      have := analyze_images_missing ex an paths h
      rw [hrec] at this
      exact this
    subst hres
    have hmain : images_main ex an synth paths ts = (evs, none) := by
      unfold images_main
      rw [hrec]
    rw [hmain]
    have hevs : ∀ e ∈ evs, ∃ q, e = SGEvent.analyzeCall q ∧ q ∈ paths.takeWhile ex := by
      intro e he
      exact analyze_images_events ex an paths e (by rw [hrec]; exact he)
    refine ⟨rfl, ?_, ?_, ?_, ?_⟩
    · intro hmem
      obtain ⟨q, hq, -⟩ := hevs _ hmem
      exact SGEvent.noConfusion hq
    · intro fp c hmem
      obtain ⟨q, hq, -⟩ := hevs _ hmem
      exact SGEvent.noConfusion hq
    · intro hmem
      obtain ⟨q, hq, -⟩ := hevs _ hmem
      exact SGEvent.noConfusion hq
    · intro q hmem
      obtain ⟨q2, hq, hQ⟩ := hevs _ hmem
      injection hq with hqq
      subst hqq
      exact hQ

/-- Witness for C4: a run with existing "a" before missing "b" returns no
filepath and never creates the directory. -/
theorem C4_missing_path_aborts_witness :
    (images_main (fun p => p == "a") (fun p => if p == "a" then some "analysis" else none)
        (fun _ => some "guide") ["a", "b"] "20260101_000000").2 = none ∧
    SGEvent.mkdirStyleGuides ∉
      (images_main (fun p => p == "a") (fun p => if p == "a" then some "analysis" else none)
        (fun _ => some "guide") ["a", "b"] "20260101_000000").1 := by
  have h := C4_missing_path_aborts (fun p => p == "a")
    (fun p => if p == "a" then some "analysis" else none)
    (fun _ => some "guide") ["a", "b"] "20260101_000000" ⟨"b", by decide, by decide⟩
  exact ⟨h.1, h.2.1⟩

/-- C5: when the style-guide file does not exist, `generate_image` prints
the not-found error and the remediation hint and exits with code 1,
issuing no LLM call, no image call, no download and no write. -/
theorem C5_missing_style_guide_exits (enhance : String → String → String)
    (rep : ReplicateOutput) (download : String → String) (path prompt : String) :
    generate_image none enhance rep download path prompt =
      (GIResult.exited 1, [],
       ["Error: Style guide not found: " ++ path,
        "Create one first using: python create_style_guide.py --artist \x27Artist Name\x27"]) :=
  rfl

/-- C6: in the name-based mode an LLM exception is caught, the error and
the three remediation hints are printed, the generator returns `none`, and
`create_style_guide` returns `none` without writing any file. -/
theorem C6_llm_error_writes_nothing (name e : String) :
    (generate_style_guide_with_llm name (Except.error e)).1 = none ∧
    ("❌ Error calling LLM: " ++ e) ∈ (generate_style_guide_with_llm name (Except.error e)).2 ∧
    "1. Installed litellm: pip install litellm" ∈
      (generate_style_guide_with_llm name (Except.error e)).2 ∧
    "2. Set your API key (e.g., export OPENAI_API_KEY=\x27your-key\x27)" ∈
      (generate_style_guide_with_llm name (Except.error e)).2 ∧
    "3. Have access to the specified model" ∈
      (generate_style_guide_with_llm name (Except.error e)).2 ∧
    (create_style_guide name (Except.error e)).2.1 = none ∧
    ∀ fp c, SGEvent.writeFile fp c ∉ (create_style_guide name (Except.error e)).1 := by
  refine ⟨rfl, ?_, ?_, ?_, ?_, rfl, ?_⟩ <;>
    simp [generate_style_guide_with_llm, create_style_guide]

/-- C7: the claim's intent is the source's dataflow — line 113 applies the
sanitise-and-truncate routine to the original user prompt, and
`make_safe_filename` reads nothing but its prompt argument, so were a
filename ever produced it could depend on the original prompt alone.  But
the code is broken at exactly that point: `re` is never imported, so line
113 raises `NameError` on every run that reaches it — no run finishes, no
run computes a filename, and no file is ever written, whatever the
style-guide content, LLM response, replicate output or download. -/
theorem C7_no_run_computes_filename :
    (∀ (sgFile : Option String) (enhance : String → String → String)
       (rep : ReplicateOutput) (download : String → String) (path prompt f : String),
      (generate_image sgFile enhance rep download path prompt).1 ≠ GIResult.finished f) ∧
    (∀ (g : String) (enhance : String → String → String) (download : String → String)
       (path prompt u : String) (us : List String),
      (generate_image (some g) enhance (ReplicateOutput.listed (u :: us)) download
          path prompt).1 = GIResult.raised nameErrorRe ∧
      (generate_image (some g) enhance (ReplicateOutput.single u) download
          path prompt).1 = GIResult.raised nameErrorRe) ∧
    (∀ (sgFile : Option String) (enhance : String → String → String)
       (rep : ReplicateOutput) (download : String → String) (path prompt fn c : String),
      GIEvent.fileWrite fn c ∉ (generate_image sgFile enhance rep download path prompt).2.1) ∧
    "re" ∉ generate_image_imports := by
  refine ⟨?_, ?_, ?_, by decide⟩
  · intro sgFile enhance rep download path prompt f
    cases sgFile with
    | none => simp [generate_image]
    | some sg =>
      cases hrep : select_image_url rep with
      | none => simp [generate_image, hrep]
      | some url => simp [generate_image, hrep]
  · intro g enhance download path prompt u us
    exact ⟨rfl, rfl⟩
  · intro sgFile enhance rep download path prompt fn c
    cases sgFile with
    | none => simp [generate_image]
    | some sg =>
      cases hrep : select_image_url rep with
      | none => simp [generate_image, hrep]
      | some url => simp [generate_image, hrep]

/-- C8: a list output from the image call has its first element selected
and downloaded; a single URL output is downloaded as is. -/
theorem C8_first_url_downloaded (g : String) (enhance : String → String → String)
    (download : String → String) (path prompt u : String) (us : List String) :
    select_image_url (ReplicateOutput.listed (u :: us)) = some u ∧
    select_image_url (ReplicateOutput.single u) = some u ∧
    GIEvent.httpGet u ∈
      (generate_image (some g) enhance (ReplicateOutput.listed (u :: us)) download
        path prompt).2.1 ∧
    GIEvent.httpGet u ∈
      (generate_image (some g) enhance (ReplicateOutput.single u) download path prompt).2.1 := by
  refine ⟨rfl, rfl, ?_, ?_⟩ <;> simp [generate_image, select_image_url]

/-- C9: the name-to-filename transform touches only letter case, spaces,
periods and hyphens — any other ASCII character is kept verbatim by the
per-character transform, and so lands verbatim in the derived path, which
is therefore not filesystem-safe for arbitrary names (a slash or colon
passes straight through). -/
theorem C9_other_chars_pass_verbatim :
    (∀ name, style_guide_filename name = spec_slug_amended name) ∧
    (∀ c : Char, c.toNat < 128 → ¬(c = ' ' ∨ c = '.' ∨ c = '-') →
      ¬('A' ≤ c ∧ c ≤ 'Z') → slug_char c = some c) ∧
    style_guide_filepath "A/B:c!" = "style-guides/a/b:c!.md" := by
  refine ⟨slug_single_pass, ?_, by decide⟩
  intro c _ hpunct hcase
  have h1 : ¬ c = ' ' := fun hc => hpunct (Or.inl hc)
  have h2 : ¬ c = '.' := fun hc => hpunct (Or.inr (Or.inl hc))
  have h3 : ¬ c = '-' := fun hc => hpunct (Or.inr (Or.inr hc))
  simp [slug_char, lowerAscii, hcase, h1, h2, h3]

/-- Witness for C9: a slash is kept verbatim, and the derived path for
"A/B:c!" contains the slash and colon unchanged. -/
theorem C9_other_chars_pass_verbatim_witness :
    slug_char '/' = some '/' ∧ style_guide_filepath "A/B:c!" = "style-guides/a/b:c!.md" :=
  ⟨C9_other_chars_pass_verbatim.2.1 '/' (by decide) (by decide) (by decide),
   C9_other_chars_pass_verbatim.2.2⟩

/-- C10: the claim reads off the body of `make_safe_filename` correctly —
on a prompt with no ASCII alphanumeric character after lowercasing, the
body's algorithm returns the empty string, and the `open` at line 114 has
no guard against an empty filename.  But that open is never reached: line
113's call of `make_safe_filename` raises `NameError` (`re` is never
imported) before returning the empty string, so the run aborts with the
exception and no write — empty-named or otherwise — is ever attempted. -/
theorem C10_empty_filename_never_written (prompt : String)
    (h : ∀ c ∈ prompt.data, isSafeChar (lowerAscii c) = false) :
    make_safe_filename prompt 50 = "" ∧
    ∀ (g : String) (enhance : String → String → String) (download : String → String)
      (path u : String),
      (generate_image (some g) enhance (ReplicateOutput.single u) download
          path prompt).1 = GIResult.raised nameErrorRe ∧
      ∀ fn c, GIEvent.fileWrite fn c ∉
        (generate_image (some g) enhance (ReplicateOutput.single u) download
          path prompt).2.1 := by
  refine ⟨ make_safe_filename_all_unsafe prompt h, ?_⟩
  intro g enhance download path u
  refine ⟨rfl, ?_⟩
  intro fn c
  simp [generate_image, select_image_url]

/-- Witness for C10: the prompt "!!!" sanitises (per the function body's
algorithm) to the empty string, and the run raises `NameError` instead of
writing. -/
theorem C10_empty_filename_never_written_witness :
    make_safe_filename "!!!" 50 = "" ∧
    (generate_image (some "guide") (fun _ _ => "enhanced")
        (ReplicateOutput.single "url") (fun _ => "bytes") "p.md" "!!!").1 =
      GIResult.raised nameErrorRe := by
  have h := C10_empty_filename_never_written "!!!" (by decide)
  exact ⟨h.1, (h.2 "guide" (fun _ _ => "enhanced") (fun _ => "bytes") "p.md" "url").1⟩

end ConsistentImages
